import Mathlib

/-!
Shallow embedding of the Precedent Similarity & Scoring Engine of the
ledgermind repository, together with theorems settling the frozen claims.

Sources embedded:
- src/services/api/src/services/embedding.ts (CustomEmbeddingProvider)
- src/packages/db/src/repositories/vectors.ts (VectorRepository:
  storeVector, findSimilar, cosineSimilarity)
- src/packages/db/schema.sql (decision_vectors table)
- src/unnamed/part_004 (similarity-query aggregate scoring and the
  decisions/batch import route)

JavaScript numbers are modelled as real numbers where square roots occur
(cosine similarity and everything downstream of it) and as rationals in
the purely structural modules (embedding-response probing, batch import),
where no irrational value can arise and concrete runs must be decidable.
-/

namespace LedgerMind

/-! ## CustomEmbeddingProvider (src/services/api/src/services/embedding.ts, lines 104-137)

The provider posts to a configured endpoint and probes the JSON response
for known field names.  An `Option` field is `none` exactly when the JSON
field is absent (or null/undefined, which behave identically under the
source's truthiness tests); a present array - even an empty one - is
truthy in JavaScript, which the `Option` match reproduces. -/

/-- Shape of the JSON body probed by `CustomEmbeddingProvider.embed`. -/
structure SingleEmbedResponse where
  embedding : Option (List ℚ)
  embeddings : Option (List (List ℚ))
  vector : Option (List ℚ)

/-- Shape of the JSON body probed by `CustomEmbeddingProvider.embedBatch`. -/
structure BatchEmbedResponse where
  embeddings : Option (List (List ℚ))
  vectors : Option (List (List ℚ))

/-- Source line 125: `return data.embedding || data.embeddings?.[0] || data.vector || [];`.
`data.embeddings?.[0]` is `none` when `embeddings` is absent or empty. -/
def customEmbed (r : SingleEmbedResponse) : List ℚ :=
  match r.embedding with
  | some v => v
  | none =>
    match r.embeddings.bind List.head? with
    | some v => v
    | none => r.vector.getD []

/-- Source line 135: `return data.embeddings || data.vectors || [];`. -/
def customEmbedBatch (r : BatchEmbedResponse) : List (List ℚ) :=
  match r.embeddings with
  | some es => es
  | none => r.vectors.getD []

/-! ## VectorRepository.cosineSimilarity (src/packages/db/src/repositories/vectors.ts, lines 142-157)

The source loop accumulates `dotProduct`, `normA`, `normB` in one pass over
the index range (well-defined because the unequal-length case has already
returned 0); the fold below carries the same three accumulators over the
zipped vectors. -/

/-- One step of the source's accumulation loop: adds `a[i]*b[i]`, `a[i]*a[i]`,
`b[i]*b[i]` to the three accumulators. -/
def cosStep (acc : ℝ × ℝ × ℝ) (p : ℝ × ℝ) : ℝ × ℝ × ℝ :=
  (acc.1 + p.1 * p.2, acc.2.1 + p.1 * p.1, acc.2.2 + p.2 * p.2)

/-- `VectorRepository.cosineSimilarity`: returns 0 on unequal lengths, else
`dotProduct / (Math.sqrt(normA) * Math.sqrt(normB))` with a 0 guard on a
zero denominator. -/
noncomputable def cosineSimilarity (a b : List ℝ) : ℝ :=
  if a.length ≠ b.length then 0
  else
    let s := (a.zip b).foldl cosStep (0, 0, 0)
    let denominator := Real.sqrt s.2.1 * Real.sqrt s.2.2
    if denominator = 0 then 0 else s.1 / denominator

/-- Dot product of two vectors, as the claim states it (over the zipped
entries, which agree with the source loop when lengths are equal). -/
def dotList (a b : List ℝ) : ℝ := ((a.zip b).map fun p => p.1 * p.2).sum

/-- Sum of squares of a vector; `Real.sqrt (sumSq a)` is the Euclidean norm. -/
def sumSq (a : List ℝ) : ℝ := (a.map fun x => x * x).sum

theorem cosStep_foldl (ps : List (ℝ × ℝ)) :
    ∀ acc : ℝ × ℝ × ℝ,
      ps.foldl cosStep acc =
        (acc.1 + (ps.map fun p => p.1 * p.2).sum,
         acc.2.1 + (ps.map fun p => p.1 * p.1).sum,
         acc.2.2 + (ps.map fun p => p.2 * p.2).sum) := by
  induction ps with
  | nil => intro acc; simp
  | cons p ps ih =>
    intro acc
    simp [cosStep, ih, add_assoc]

theorem sumSq_nonneg (a : List ℝ) : 0 ≤ sumSq a := by
  apply List.sum_nonneg
  intro x hx
  simp only [List.mem_map] at hx
  obtain ⟨y, -, rfl⟩ := hx
  exact mul_self_nonneg y

theorem cosineSimilarity_eval (a b : List ℝ) (h : a.length = b.length) :
    cosineSimilarity a b =
      if Real.sqrt (sumSq a) * Real.sqrt (sumSq b) = 0 then 0
      else dotList a b / (Real.sqrt (sumSq a) * Real.sqrt (sumSq b)) := by
  have hfst : (a.zip b).map (fun p => p.1 * p.1) = a.map fun x => x * x := by
    have : (a.zip b).map (fun p => p.1 * p.1) =
        ((a.zip b).map Prod.fst).map fun x => x * x := by
      simp [List.map_map, Function.comp]
    rw [this, List.map_fst_zip a b (le_of_eq h)]
  have hsnd : (a.zip b).map (fun p => p.2 * p.2) = b.map fun x => x * x := by
    have : (a.zip b).map (fun p => p.2 * p.2) =
        ((a.zip b).map Prod.snd).map fun x => x * x := by
      simp [List.map_map, Function.comp]
    rw [this, List.map_snd_zip a b (le_of_eq h.symm)]
  unfold cosineSimilarity
  rw [if_neg (by simp [h])]
  simp only [cosStep_foldl, zero_add]
  rw [hfst, hsnd]
  rfl

/-! ## VectorRepository.findSimilar (src/packages/db/src/repositories/vectors.ts, lines 46-137)

The SQL query (joining `decision_vectors` with `decision_events` and
`override_events`, filtered by tenant and the pushed-down filters, ordered
by timestamp descending, `LIMIT 100`) runs on the external store; the list
of rows it returns - the scan window - is a parameter of the embedding.
The application-side pipeline on that window (lines 110-136) is embedded
exactly: map to cases with a cosine score, filter by the similarity
threshold, stable-sort descending by score, truncate to the limit.
JavaScript's `Array.prototype.sort` is stable and the comparator
`(a, b) => b.similarity_score - a.similarity_score` is a total preorder,
so the sort is modelled by `List.mergeSort` with
`le a b := b.similarity_score ≤ a.similarity_score`. -/

/-- One row returned by the `findSimilar` SQL query. -/
structure DVRow where
  event_id : String
  trace_id : String
  timestamp : ℤ
  actor_name : Option String
  input_summary : Option String
  output_summary : Option String
  reasoning : Option String
  outcome : Option String
  confidence : Option ℝ
  policy_version_id : Option String
  was_overridden : Bool
  embedding : List ℝ
  override_reason : Option String

/-- The projection built per row at lines 116-130 of vectors.ts. -/
structure SimilarCase where
  event_id : String
  trace_id : String
  similarity_score : ℝ
  timestamp : ℤ
  actor_name : Option String
  input_summary : Option String
  output_summary : Option String
  reasoning : Option String
  outcome : Option String
  confidence : Option ℝ
  was_overridden : Bool
  override_reason : Option String
  policy_version_id : Option String

/-- The `options` argument of `findSimilar`; `none` models an absent field. -/
structure FindOptions where
  limit : Option ℕ := none
  minSimilarity : Option ℝ := none
  workflowName : Option String := none
  outcomeFilter : Option (List String) := none
  policyVersionId : Option String := none

/-- Line 57: `const limit = options.limit || 10;` - any falsy value
(absent, or an explicit 0) falls back to 10. -/
def effLimit (o : FindOptions) : ℕ :=
  match o.limit with
  | none => 10
  | some l => if l = 0 then 10 else l

/-- Line 58: `const minSimilarity = options.minSimilarity || 0.7;` - any
falsy value (absent, or an explicit 0) falls back to 0.7. -/
noncomputable def effMinSimilarity (o : FindOptions) : ℝ :=
  match o.minSimilarity with
  | none => 0.7
  | some m => if m = 0 then 0.7 else m

/-- Lines 111-131: one mapped row of `withSimilarity`. -/
noncomputable def mkSimilarCase (queryEmbedding : List ℝ) (row : DVRow) : SimilarCase where
  event_id := row.event_id
  trace_id := row.trace_id
  similarity_score := cosineSimilarity queryEmbedding row.embedding
  timestamp := row.timestamp
  actor_name := row.actor_name
  input_summary := row.input_summary
  output_summary := row.output_summary
  reasoning := row.reasoning
  outcome := row.outcome
  confidence := row.confidence
  was_overridden := row.was_overridden
  override_reason := row.override_reason
  policy_version_id := row.policy_version_id

/-- The stable descending comparison used by the sort at line 133. -/
noncomputable def scoreDescLE (a b : SimilarCase) : Bool :=
  decide (b.similarity_score ≤ a.similarity_score)

/-- Lines 110-136 of vectors.ts: map, filter by threshold, stable sort
descending by score, truncate to the limit. -/
noncomputable def findSimilar (queryEmbedding : List ℝ) (window : List DVRow)
    (options : FindOptions) : List SimilarCase :=
  let limit := effLimit options
  let minSimilarity := effMinSimilarity options
  let withSimilarity :=
    (((window.map (mkSimilarCase queryEmbedding)).filter
        fun item => decide (minSimilarity ≤ item.similarity_score)).mergeSort
      scoreDescLE)
  withSimilarity.take limit

/-! ## Similarity-query aggregate scoring (src/unnamed/part_004, lines 181-201)

The route computes summary statistics over the list returned by
`findSimilar` and reduces them to `precedentAlignmentScore`. -/

/-- Line 183: `similarCases.reduce((sum, c) => sum + (c.confidence || 0), 0)
/ (totalFound || 1)`. -/
noncomputable def aggAvgConfidence (cases : List SimilarCase) : ℝ :=
  (cases.foldl (fun sum c => sum + c.confidence.getD 0) 0) /
    (if cases.length = 0 then 1 else (cases.length : ℝ))

/-- Line 184: `similarCases.filter(c => c.was_overridden).length`. -/
def overrideCount (cases : List SimilarCase) : ℕ :=
  (cases.filter fun c => c.was_overridden).length

/-- Line 185: `(overrideCount / (totalFound || 1)) * 100`. -/
noncomputable def aggOverrideRate (cases : List SimilarCase) : ℝ :=
  ((overrideCount cases : ℝ) /
    (if cases.length = 0 then 1 else (cases.length : ℝ))) * 100

/-- Lines 197-201: `Math.max(0, Math.min(1, (1 - overrideRate/100) * 0.5 +
avgConfidence * 0.3 + 0.2))`. -/
noncomputable def precedentAlignmentScore (cases : List SimilarCase) : ℝ :=
  max 0 (min 1
    ((1 - aggOverrideRate cases / 100) * 0.5 + aggAvgConfidence cases * 0.3 + 0.2))

/-- Clamp to [0,1], as the spec formula writes it. -/
noncomputable def clamp01 (x : ℝ) : ℝ := max 0 (min 1 x)

/-- Spec-side formula: `overrideRatePercent = 100 * |overridden| / max(1,|cases|)`. -/
noncomputable def specOverrideRatePercent (cases : List SimilarCase) : ℝ :=
  100 * (overrideCount cases : ℝ) / max 1 (cases.length : ℝ)

/-- Spec-side formula: `avgConfidence = (sum of confidences, missing as 0) / max(1,|cases|)`. -/
noncomputable def specAvgConfidence (cases : List SimilarCase) : ℝ :=
  (cases.map fun c => c.confidence.getD 0).sum / max 1 (cases.length : ℝ)

/-! ## VectorRepository.storeVector (vectors.ts lines 10-41) against
src/packages/db/schema.sql lines 94-113

`storeVector` issues a plain `INSERT INTO decision_vectors ...`.  The
`decision_vectors` table declares `event_id UUID NOT NULL REFERENCES
decision_events(event_id)` and `embedding vector(1536) NOT NULL`; it has
NO unique constraint on `event_id` and the insert has no `ON CONFLICT`
clause.  So the insert fails on a dangling `event_id` (foreign key) or a
wrong-dimension embedding, and otherwise appends a row - there is no
duplicate check of any kind. -/

/-- Metadata argument of `storeVector`. -/
structure VectorMeta where
  decision_type : Option String
  workflow_name : Option String
  outcome : Option String
  policy_version_id : Option String
  timestamp : ℤ
deriving DecidableEq

/-- One row of the `decision_vectors` table (`was_overridden DEFAULT FALSE`). -/
structure DecisionVectorRow where
  event_id : String
  tenant_id : String
  embedding : List ℚ
  decision_type : Option String
  workflow_name : Option String
  outcome : Option String
  policy_version_id : Option String
  timestamp : ℤ
  was_overridden : Bool := false
deriving DecidableEq

/-- `VectorRepository.storeVector`: the INSERT of vectors.ts lines 22-40
under the constraints of schema.sql lines 94-113.  `events` is the set of
existing `decision_events` ids (the foreign-key target). -/
def storeVector (events : List String) (db : List DecisionVectorRow)
    (eventId tenantId : String) (embedding : List ℚ) (md : VectorMeta) :
    Except String (List DecisionVectorRow) :=
  if eventId ∉ events then
    .error "insert or update on table decision_vectors violates foreign key constraint"
  else if embedding.length ≠ 1536 then
    .error "expected 1536 dimensions"
  else
    .ok (db ++ [{ event_id := eventId, tenant_id := tenantId, embedding := embedding,
                  decision_type := md.decision_type, workflow_name := md.workflow_name,
                  outcome := md.outcome, policy_version_id := md.policy_version_id,
                  timestamp := md.timestamp }])

/-! ## Batch import route (src/unnamed/part_004, lines 913-1019)

`POST /decisions/batch`: validation, then chunks of 50; per chunk an
optional `generateBatch` call whose failure is caught and degrades the
chunk to no generated embeddings; per item an event creation and an
optional vector store inside one try/catch.  The awaited external calls
(`embeddingService.generateBatch`, `eventRepo.createEvent`,
`vectorRepo.storeVector`) are modelled as oracles in `BatchEnv`; the
per-item oracles are indexed by the item's global index `i + j`, matching
the source's error tags.  Effects (created events, stored vectors) are
accumulated in `BatchState`.  Vectors are rationals here: this route only
moves them, never computes with them. -/

/-- One element of the request's `decisions` array. -/
structure BatchDecision where
  trace_id : Option String := none
  step_id : Option String := none
  agent_name : Option String := none
  input : Option String := none
  output : Option String := none
  reasoning : Option String := none
  outcome : Option String := none
  confidence : Option ℚ := none
  decision_type : Option String := none
  workflow_name : Option String := none
  embedding : Option (List ℚ) := none
deriving DecidableEq

/-- The `{input, output, reasoning}` object passed to `generateBatch`
(lines 942-946). -/
structure EmbedContext where
  input : Option String
  output : Option String
  reasoning : Option String
deriving DecidableEq

/-- Line 942: `batch.map(d => ({input: d.input, output: d.output, reasoning: d.reasoning}))`. -/
def mkEmbedContext (d : BatchDecision) : EmbedContext :=
  ⟨d.input, d.output, d.reasoning⟩

/-- The event record returned by `eventRepo.createEvent`. -/
structure BatchEvent where
  event_id : String
  timestamp : ℤ
deriving DecidableEq

/-- Oracles for the awaited external calls of the batch route.  `.error`
models a raised exception. -/
structure BatchEnv where
  generateBatch : List EmbedContext → Except String (List (List ℚ))
  createEvent : ℕ → BatchDecision → Except String BatchEvent
  storeVectorOutcome : ℕ → Except String Unit

/-- Running state of the import: the `results` object of lines 926-930
plus the accumulated side effects. -/
structure BatchState where
  imported : ℕ
  failed : ℕ
  errors : List String
  createdEvents : List BatchEvent
  storedVectors : List (ℕ × List ℚ)
deriving DecidableEq

/-- Lines 926-930: `{imported: 0, failed: 0, errors: []}`, no effects yet. -/
def initBatchState : BatchState := ⟨0, 0, [], [], []⟩

/-- Line 1004: the index-tagged message pushed on a per-item failure. -/
def itemError (idx : ℕ) (msg : String) : String :=
  "Decision " ++ toString idx ++ ": " ++ msg

/-- Lines 1002-1005: the catch branch of the per-item try. -/
def recordFailure (st : BatchState) (idx : ℕ) (msg : String) : BatchState :=
  { st with failed := st.failed + 1, errors := st.errors ++ [itemError idx msg] }

/-- Lines 974-999 tail: one `storeVector` call inside the per-item try; on
success the item is counted imported (line 1001), on a raised error the
catch branch runs. -/
def storeStep (env : BatchEnv) (idx : ℕ) (v : List ℚ) (st : BatchState) : BatchState :=
  match env.storeVectorOutcome idx with
  | .ok _ => { st with imported := st.imported + 1,
                       storedVectors := st.storedVectors ++ [(idx, v)] }
  | .error msg => recordFailure st idx msg

/-- Lines 955-1006: one item of a chunk.  `i` is the chunk start, `j` the
position inside the chunk.  `embeddings && embeddings[j]` is truthy exactly
when the generated list exists and has an entry at `j`; otherwise a
caller-supplied `decision.embedding` is used; otherwise no vector is
stored and the item is imported directly. -/
def processItem (env : BatchEnv) (i j : ℕ) (d : BatchDecision)
    (embeddings : Option (List (List ℚ))) (st : BatchState) : BatchState :=
  match env.createEvent (i + j) d with
  | .error msg => recordFailure st (i + j) msg
  | .ok ev =>
    let st := { st with createdEvents := st.createdEvents ++ [ev] }
    match embeddings.bind fun es => es.get? j with
    | some v => storeStep env (i + j) v st
    | none =>
      match d.embedding with
      | some v => storeStep env (i + j) v st
      | none => { st with imported := st.imported + 1 }

/-- Lines 955-1006: the inner `for (let j = 0; j < batch.length; j++)` loop. -/
def processChunk (env : BatchEnv) (i : ℕ) (batch : List BatchDecision)
    (embeddings : Option (List (List ℚ))) (st : BatchState) : BatchState :=
  batch.enum.foldl (fun acc jd => processItem env i jd.1 jd.2 embeddings acc) st

/-- Lines 937-952: `let embeddings = null; if (generate_embeddings) { try
{ embeddings = await embeddingService.generateBatch(...) } catch { ... } }`
- a failed `generateBatch` call is caught and the chunk proceeds with
`embeddings = null`. -/
def chunkEmbeddings (env : BatchEnv) (generateEmbeddings : Bool)
    (batch : List BatchDecision) : Option (List (List ℚ)) :=
  if generateEmbeddings then
    match env.generateBatch (batch.map mkEmbedContext) with
    | .ok es => some es
    | .error _ => none
  else none

/-- Lines 934-1007: the outer `for (let i = 0; i < decisions.length; i +=
BATCH_SIZE)` loop with `BATCH_SIZE = 50`.  `fuel` makes the recursion
structural; `batchImport` supplies `decisions.length`, which always
suffices since each iteration advances `i` by 50. -/
def importLoop (env : BatchEnv) (generateEmbeddings : Bool)
    (decisions : List BatchDecision) : ℕ → ℕ → BatchState → BatchState
  | 0, _, st => st
  | fuel + 1, i, st =>
    if i < decisions.length then
      importLoop env generateEmbeddings decisions fuel (i + 50)
        (processChunk env i ((decisions.drop i).take 50)
          (chunkEmbeddings env generateEmbeddings ((decisions.drop i).take 50)) st)
    else st

/-- The JSON body of the success response (lines 1009-1015). -/
structure BatchResponse where
  imported : ℕ
  failed : ℕ
  errors : List String
  message : String
deriving DecidableEq

/-- Result of the route: a 400 rejection, or the success response together
with the final state (counts and accumulated effects). -/
inductive BatchOutcome where
  | badRequest (error : String)
  | ok (resp : BatchResponse) (st : BatchState)
deriving DecidableEq

/-- Lines 1009-1015: the success response, carrying the full counts and at
most 10 error messages (`results.errors.slice(0, 10)`). -/
def mkOkResponse (st : BatchState) : BatchOutcome :=
  .ok { imported := st.imported, failed := st.failed,
        errors := st.errors.take 10,
        message := "Imported " ++ toString st.imported ++ " decisions, " ++
          toString st.failed ++ " failed" } st

/-- Lines 913-1019: the whole handler.  Validation happens before any
processing (lines 918-924). -/
def batchImport (env : BatchEnv) (decisions : List BatchDecision)
    (generateEmbeddings : Bool) : BatchOutcome :=
  if decisions.length = 0 then
    .badRequest "decisions must be a non-empty array"
  else if 1000 < decisions.length then
    .badRequest "Maximum batch size is 1000 decisions"
  else
    mkOkResponse (importLoop env generateEmbeddings decisions decisions.length 0 initBatchState)

/-- Events created by a request: a rejected request runs no processing. -/
def outcomeEvents : BatchOutcome → List BatchEvent
  | .badRequest _ => []
  | .ok _ st => st.createdEvents

/-- Vectors stored by a request: a rejected request runs no processing. -/
def outcomeStored : BatchOutcome → List (ℕ × List ℚ)
  | .badRequest _ => []
  | .ok _ st => st.storedVectors

/-- Imported count reported by a request (0 for a rejected request). -/
def outcomeImported : BatchOutcome → ℕ
  | .badRequest _ => 0
  | .ok r _ => r.imported

/-- Failed count reported by a request (0 for a rejected request). -/
def outcomeFailed : BatchOutcome → ℕ
  | .badRequest _ => 0
  | .ok r _ => r.failed

/-- Concrete environment whose event creation always raises. -/
def failEnv : BatchEnv where
  generateBatch := fun _ => .ok []
  createEvent := fun _ _ => .error "boom"
  storeVectorOutcome := fun _ => .ok ()

/-- The embedding generated for every item of the first chunk in the
Scenario D run. -/
def genVec : List ℚ := [1, 0]

/-- Concrete environment for Scenario D: `generateBatch` succeeds exactly
on 50-element chunks (so it fails on the trailing 10-element chunk),
event creation and vector stores always succeed. -/
def envD : BatchEnv where
  generateBatch := fun ctxs =>
    if ctxs.length = 50 then .ok (List.replicate 50 genVec)
    else .error "BackendUnavailable"
  createEvent := fun i _ => .ok ⟨"evt-" ++ toString i, 0⟩
  storeVectorOutcome := fun _ => .ok ()

/-- Scenario D input: 60 decisions, none carrying a caller-supplied
embedding. -/
def decisionsD : List BatchDecision := List.replicate 60 {}

/-! ## Theorems -/

theorem foldl_add_eq_sum (f : SimilarCase → ℝ) (l : List SimilarCase) :
    ∀ s : ℝ, l.foldl (fun acc c => acc + f c) s = s + (l.map f).sum := by
  induction l with
  | nil => intro s; simp
  | cons c l ih => intro s; simp [ih, add_assoc]

theorem denom_eq_max (n : ℕ) : (if n = 0 then (1:ℝ) else (n:ℝ)) = max 1 (n:ℝ) := by
  rcases n with _ | m
  · simp
  · rw [if_neg (Nat.succ_ne_zero m), max_eq_right]
    exact_mod_cast Nat.one_le_iff_ne_zero.mpr (Nat.succ_ne_zero m)

/-- C1: for every list of similar cases the aggregate scoring step computes
`precedentAlignmentScore = clamp01((1 - overrideRatePercent/100) * 0.5 +
avgConfidence * 0.3 + 0.2)` with `overrideRatePercent = 100 * |overridden| /
max(1,|cases|)` and `avgConfidence = (sum of confidences, missing treated
as 0) / max(1,|cases|)`; for the empty case list the score is exactly 0.7. -/
theorem aggregate_score_matches_spec :
    (∀ cases : List SimilarCase,
      precedentAlignmentScore cases =
        clamp01 ((1 - specOverrideRatePercent cases / 100) * 0.5 +
          specAvgConfidence cases * 0.3 + 0.2)) ∧
    precedentAlignmentScore [] = 0.7 := by
  constructor
  · intro cases
    have h1 : aggAvgConfidence cases = specAvgConfidence cases := by
      unfold aggAvgConfidence specAvgConfidence
      rw [foldl_add_eq_sum, zero_add, denom_eq_max]
    have h2 : aggOverrideRate cases = specOverrideRatePercent cases := by
      unfold aggOverrideRate specOverrideRatePercent
      rw [denom_eq_max]
      ring
    unfold precedentAlignmentScore clamp01
    rw [h1, h2]
  · simp only [precedentAlignmentScore, aggOverrideRate, aggAvgConfidence,
      overrideCount, List.filter_nil, List.length_nil, List.foldl_nil]
    norm_num

/-- C3: `cosineSimilarity` returns 0 whenever the vectors have unequal
lengths or either has zero norm, and otherwise returns
`dot(a,b) / (norm(a) * norm(b))`; it is a total function (the zero
denominator is guarded, so no NaN and no exception can arise). -/
theorem cosineSimilarity_spec : ∀ a b : List ℝ,
    (a.length ≠ b.length → cosineSimilarity a b = 0) ∧
    (sumSq a = 0 → cosineSimilarity a b = 0) ∧
    (sumSq b = 0 → cosineSimilarity a b = 0) ∧
    (a.length = b.length → sumSq a ≠ 0 → sumSq b ≠ 0 →
      cosineSimilarity a b =
        dotList a b / (Real.sqrt (sumSq a) * Real.sqrt (sumSq b))) := by
  intro a b
  refine ⟨?_, ?_, ?_, ?_⟩
  · intro h
    unfold cosineSimilarity
    rw [if_pos h]
  · intro h
    by_cases hl : a.length = b.length
    · rw [cosineSimilarity_eval a b hl, if_pos]
      rw [h, Real.sqrt_zero, zero_mul]
    · unfold cosineSimilarity
      rw [if_pos hl]
  · intro h
    by_cases hl : a.length = b.length
    · rw [cosineSimilarity_eval a b hl, if_pos]
      rw [h, Real.sqrt_zero, mul_zero]
    · unfold cosineSimilarity
      rw [if_pos hl]
  · intro hl ha hb
    rw [cosineSimilarity_eval a b hl, if_neg]
    intro hcon
    rcases mul_eq_zero.mp hcon with h | h
    · exact ha ((Real.sqrt_eq_zero (sumSq_nonneg a)).mp h)
    · exact hb ((Real.sqrt_eq_zero (sumSq_nonneg b)).mp h)

/-- Witness for C3: on the concrete equal-length, nonzero-norm pair
`[1]`, `[1]` the guarded formula evaluates to similarity 1. -/
theorem cosineSimilarity_spec_witness : cosineSimilarity [(1:ℝ)] [1] = 1 := by
  have h := (cosineSimilarity_spec [(1:ℝ)] [1]).2.2.2 rfl
    (by norm_num [sumSq]) (by norm_num [sumSq])
  rw [h]
  norm_num [dotList, sumSq]

/-- C8: `CustomEmbeddingProvider.embed` returns the `embedding` field if
present, else `embeddings[0]`, else `vector`, else the empty vector;
`embedBatch` returns `embeddings` if present, else `vectors`, else the
empty list. -/
theorem customProvider_probes_in_priority_order :
    (∀ r : SingleEmbedResponse, ∀ v, r.embedding = some v → customEmbed r = v) ∧
    (∀ r : SingleEmbedResponse, ∀ v l, r.embedding = none →
      r.embeddings = some (v :: l) → customEmbed r = v) ∧
    (∀ r : SingleEmbedResponse, ∀ v, r.embedding = none →
      (r.embeddings = none ∨ r.embeddings = some []) → r.vector = some v →
      customEmbed r = v) ∧
    (∀ r : SingleEmbedResponse, r.embedding = none →
      (r.embeddings = none ∨ r.embeddings = some []) → r.vector = none →
      customEmbed r = []) ∧
    (∀ r : BatchEmbedResponse, ∀ es, r.embeddings = some es →
      customEmbedBatch r = es) ∧
    (∀ r : BatchEmbedResponse, ∀ es, r.embeddings = none → r.vectors = some es →
      customEmbedBatch r = es) ∧
    (∀ r : BatchEmbedResponse, r.embeddings = none → r.vectors = none →
      customEmbedBatch r = []) := by
  refine ⟨?_, ?_, ?_, ?_, ?_, ?_, ?_⟩
  · intro r v h
    unfold customEmbed
    rw [h]
  · intro r v l h1 h2
    unfold customEmbed
    rw [h1, h2]
    rfl
  · intro r v h1 h2 h3
    unfold customEmbed
    rcases h2 with h2 | h2 <;> rw [h1, h2, h3] <;> rfl
  · intro r h1 h2 h3
    unfold customEmbed
    rcases h2 with h2 | h2 <;> rw [h1, h2, h3] <;> rfl
  · intro r es h
    unfold customEmbedBatch
    rw [h]
  · intro r es h1 h2
    unfold customEmbedBatch
    rw [h1, h2]
    rfl
  · intro r h1 h2
    unfold customEmbedBatch
    rw [h1, h2]
    rfl

/-- Witness for C8: with `embedding` absent, `embed` falls back to
`embeddings[0]` even when `vector` is present, and `embedBatch` takes
`embeddings` when present. -/
theorem customProvider_probes_witness :
    customEmbed ⟨none, some [[1], [2]], some [3]⟩ = [1] ∧
    customEmbedBatch ⟨some [[4]], none⟩ = [[4]] :=
  ⟨customProvider_probes_in_priority_order.2.1 _ [1] [[2]] rfl rfl,
   customProvider_probes_in_priority_order.2.2.2.2.1 _ [[4]] rfl⟩

/-- A 1536-dimensional embedding (the dimension fixed by the schema). -/
def emb1536 : List ℚ := List.replicate 1536 1

/-- Concrete metadata for the store scenarios. -/
def md0 : VectorMeta := ⟨none, none, none, none, 0⟩

/-- A stored vector row for event `e-1`. -/
def row0 : DecisionVectorRow :=
  { event_id := "e-1", tenant_id := "tenant-1", embedding := emb1536,
    decision_type := none, workflow_name := none, outcome := none,
    policy_version_id := none, timestamp := 0, was_overridden := false }

/-- A table that already holds a vector for event `e-1`. -/
def db0 : List DecisionVectorRow := [row0]

/-- Counterexample to C4: `db0` already holds a vector record for event
`e-1`, yet a second `storeVector` call for the same `eventId` succeeds
and inserts a second row - the schema has no uniqueness constraint on
`event_id` and the INSERT has no conflict clause, so nothing fails with
`DuplicateRecord`. -/
theorem storeVector_duplicate_not_rejected :
    row0.event_id = "e-1" ∧ row0 ∈ db0 ∧
    storeVector ["e-1"] db0 "e-1" "tenant-1" emb1536 md0 = .ok [row0, row0] := by
  refine ⟨rfl, List.mem_singleton.mpr rfl, ?_⟩
  have h1 : ¬ ("e-1" ∉ ["e-1"]) := by simp
  have hlen : emb1536.length = 1536 := by
    rw [emb1536, List.length_replicate]
  unfold storeVector
  rw [if_neg h1, if_neg (not_not_intro hlen)]
  rfl

/-- C4 amended: a `store` call whose `eventId` exists in `decision_events`
and whose embedding has the schema dimension always succeeds and appends a
new row, even when a record for the same `eventId` is already present;
existing records are left unchanged (the table is only appended to, there
is no upsert and no duplicate rejection). -/
theorem storeVector_always_appends (events : List String)
    (db : List DecisionVectorRow) (eventId tenantId : String)
    (embedding : List ℚ) (md : VectorMeta)
    (hev : eventId ∈ events) (hdim : embedding.length = 1536) :
    storeVector events db eventId tenantId embedding md =
      .ok (db ++ [{ event_id := eventId, tenant_id := tenantId,
                    embedding := embedding, decision_type := md.decision_type,
                    workflow_name := md.workflow_name, outcome := md.outcome,
                    policy_version_id := md.policy_version_id,
                    timestamp := md.timestamp, was_overridden := false }]) := by
  unfold storeVector
  rw [if_neg (not_not_intro hev), if_neg (not_not_intro hdim)]

/-- Witness for the amended C4: applied to a table already holding a row
for `e-1`, the second insert for `e-1` succeeds and appends. -/
theorem storeVector_always_appends_witness :
    storeVector ["e-1"] db0 "e-1" "tenant-1" emb1536 md0 = .ok (db0 ++ [row0]) :=
  storeVector_always_appends ["e-1"] db0 "e-1" "tenant-1" emb1536 md0
    (by simp) (by rw [emb1536, List.length_replicate])

theorem scoreDescLE_trans : ∀ a b c : SimilarCase,
    scoreDescLE a b = true → scoreDescLE b c = true → scoreDescLE a c = true := by
  intro a b c hab hbc
  simp only [scoreDescLE, decide_eq_true_eq] at *
  exact le_trans hbc hab

theorem scoreDescLE_total : ∀ a b : SimilarCase,
    (scoreDescLE a b || scoreDescLE b a) = true := by
  intro a b
  simp only [scoreDescLE, Bool.or_eq_true, decide_eq_true_eq]
  exact le_total _ _

/-- C2: `findSimilar` returns at most the (effective) limit of cases, every
returned case scores at least the (effective) minimum similarity, the
result is ordered non-increasing by similarity score, and the sort of the
filtered window is stable: any sublist of the filtered scan window that is
already non-increasing (in particular any run of tied scores, which sit in
more-recent-first scan order) survives as a sublist of the sorted list. -/
theorem findSimilar_spec (q : List ℝ) (window : List DVRow) (opts : FindOptions) :
    (findSimilar q window opts).length ≤ effLimit opts ∧
    (∀ c ∈ findSimilar q window opts,
      effMinSimilarity opts ≤ c.similarity_score) ∧
    (findSimilar q window opts).Pairwise
      (fun a b => b.similarity_score ≤ a.similarity_score) ∧
    (∀ l : List SimilarCase,
      l.Pairwise (fun a b => b.similarity_score ≤ a.similarity_score) →
      List.Sublist l ((window.map (mkSimilarCase q)).filter
        fun item => decide (effMinSimilarity opts ≤ item.similarity_score)) →
      List.Sublist l (((window.map (mkSimilarCase q)).filter
        fun item => decide (effMinSimilarity opts ≤ item.similarity_score)).mergeSort
          scoreDescLE)) := by
  have hfs : findSimilar q window opts =
      (((window.map (mkSimilarCase q)).filter
        fun item => decide (effMinSimilarity opts ≤ item.similarity_score)).mergeSort
          scoreDescLE).take (effLimit opts) := rfl
  refine ⟨?_, ?_, ?_, ?_⟩
  · rw [hfs]
    exact List.length_take_le _ _
  · intro c hc
    rw [hfs] at hc
    have h1 := List.mem_of_mem_take hc
    have h2 := List.mem_mergeSort.mp h1
    exact of_decide_eq_true (List.mem_filter.mp h2).2
  · have hs := List.sorted_mergeSort scoreDescLE_trans scoreDescLE_total
      ((window.map (mkSimilarCase q)).filter
        fun item => decide (effMinSimilarity opts ≤ item.similarity_score))
    have hs' := hs.imp fun h => of_decide_eq_true h
    rw [hfs]
    exact List.Pairwise.sublist (List.take_sublist _ _) hs'
  · intro l hl hsub
    exact List.sublist_mergeSort scoreDescLE_trans scoreDescLE_total
      (hl.imp fun h => decide_eq_true h) hsub

/-- Witness for C2 at the empty scan window and default options. -/
theorem findSimilar_spec_witness :
    (findSimilar [] [] {}).length ≤ 10 ∧
    List.Sublist ([] : List SimilarCase)
      (((([] : List DVRow).map (mkSimilarCase [])).filter
        fun item => decide (effMinSimilarity {} ≤ item.similarity_score)).mergeSort
          scoreDescLE) :=
  ⟨(findSimilar_spec [] [] {}).1,
   (findSimilar_spec [] [] {}).2.2.2 [] List.Pairwise.nil (List.nil_sublist _)⟩

/-- A stored row whose embedding `[0]` has zero norm, so its similarity to
any query is 0. -/
def lowRow : DVRow :=
  { event_id := "e-low", trace_id := "t-low", timestamp := 0,
    actor_name := none, input_summary := none, output_summary := none,
    reasoning := none, outcome := none, confidence := none,
    policy_version_id := none, was_overridden := false,
    embedding := [0], override_reason := none }

/-- C10: `findSimilar` applies its defaults to any falsy argument - a call
with explicit `limit = 0` and `minSimilarity = 0` behaves exactly like a
call with `limit = 10` and `minSimilarity = 0.7`: at most 10 results, and
the 0.7 threshold still filters (a zero-similarity candidate is dropped
even though the caller asked for threshold 0). -/
theorem findSimilar_defaults_on_falsy :
    (∀ (q : List ℝ) (window : List DVRow),
      findSimilar q window { limit := some 0, minSimilarity := some 0 } =
        findSimilar q window { limit := some 10, minSimilarity := some 0.7 } ∧
      (findSimilar q window { limit := some 0, minSimilarity := some 0 }).length ≤ 10) ∧
    findSimilar [1] [lowRow] { limit := some 0, minSimilarity := some 0 } = [] := by
  have hm0 : effMinSimilarity { limit := some 0, minSimilarity := some 0 } = 0.7 := by
    norm_num [effMinSimilarity]
  have hm7 : effMinSimilarity { limit := some 10, minSimilarity := some 0.7 } = 0.7 := by
    norm_num [effMinSimilarity]
  have hl : effLimit { limit := some 0, minSimilarity := some 0 } =
      effLimit { limit := some 10, minSimilarity := some 0.7 } := rfl
  constructor
  · intro q window
    constructor
    · unfold findSimilar
      rw [hm0, hm7, hl]
    · unfold findSimilar
      exact List.length_take_le _ _
  · have hsim : cosineSimilarity [(1:ℝ)] [0] = 0 := by
      rw [cosineSimilarity_eval [(1:ℝ)] [0] rfl, if_pos]
      have h0 : sumSq [(0:ℝ)] = 0 := by norm_num [sumSq]
      rw [h0, Real.sqrt_zero, mul_zero]
    have hcase : (mkSimilarCase [1] lowRow).similarity_score = 0 := by
      simp only [mkSimilarCase, lowRow]
      exact hsim
    have hfilter : (([lowRow].map (mkSimilarCase [1])).filter
        fun item => decide (effMinSimilarity
          { limit := some 0, minSimilarity := some 0 } ≤ item.similarity_score)) = [] := by
      simp only [List.map_cons, List.map_nil, List.filter_cons, List.filter_nil]
      rw [hcase, hm0]
      rw [decide_eq_false (by norm_num : ¬ ((0.7:ℝ) ≤ 0))]
      simp
    have hfs2 : findSimilar [1] [lowRow] { limit := some 0, minSimilarity := some 0 } =
        ((([lowRow].map (mkSimilarCase [1])).filter
          fun item => decide (effMinSimilarity
            { limit := some 0, minSimilarity := some 0 } ≤ item.similarity_score)).mergeSort
              scoreDescLE).take
          (effLimit { limit := some 0, minSimilarity := some 0 }) := rfl
    rw [hfs2, hfilter]
    simp

/-- C5: a batch-import request whose decisions list is empty or larger
than 1000 is rejected whole, before any processing: no event is created,
no vector is stored, and nothing is counted imported. -/
theorem batch_validation_rejects (env : BatchEnv) (decisions : List BatchDecision)
    (g : Bool) (h : decisions = [] ∨ 1000 < decisions.length) :
    (∃ msg, batchImport env decisions g = .badRequest msg) ∧
    outcomeEvents (batchImport env decisions g) = [] ∧
    outcomeStored (batchImport env decisions g) = [] ∧
    outcomeImported (batchImport env decisions g) = 0 := by
  have hb : ∃ msg, batchImport env decisions g = .badRequest msg := by
    rcases h with h | h
    · subst h
      exact ⟨"decisions must be a non-empty array", rfl⟩
    · refine ⟨"Maximum batch size is 1000 decisions", ?_⟩
      unfold batchImport
      rw [if_neg (by omega), if_pos h]
  obtain ⟨msg, hm⟩ := hb
  refine ⟨⟨msg, hm⟩, ?_, ?_, ?_⟩ <;> rw [hm] <;> rfl

/-- Witness for C5: a batch of 1200 default decisions is rejected with no
events, no vectors and `imported = 0`. -/
theorem batch_validation_rejects_witness :
    (∃ msg, batchImport failEnv (List.replicate 1200 {}) true = .badRequest msg) ∧
    outcomeEvents (batchImport failEnv (List.replicate 1200 {}) true) = [] ∧
    outcomeStored (batchImport failEnv (List.replicate 1200 {}) true) = [] ∧
    outcomeImported (batchImport failEnv (List.replicate 1200 {}) true) = 0 :=
  batch_validation_rejects failEnv (List.replicate 1200 {}) true
    (Or.inr (by rw [List.length_replicate]; omega))

theorem processItem_count (env : BatchEnv) (i j : ℕ) (d : BatchDecision)
    (e : Option (List (List ℚ))) (st : BatchState) :
    (processItem env i j d e st).imported + (processItem env i j d e st).failed =
      st.imported + st.failed + 1 := by
  unfold processItem storeStep recordFailure
  repeat' split
  all_goals simp
  all_goals omega

theorem foldl_processItem_count (env : BatchEnv) (i : ℕ)
    (e : Option (List (List ℚ))) :
    ∀ (l : List (ℕ × BatchDecision)) (st : BatchState),
      (l.foldl (fun acc jd => processItem env i jd.1 jd.2 e acc) st).imported +
        (l.foldl (fun acc jd => processItem env i jd.1 jd.2 e acc) st).failed =
      st.imported + st.failed + l.length := by
  intro l
  induction l with
  | nil => intro st; simp
  | cons p l ih =>
    intro st
    simp only [List.foldl_cons, List.length_cons]
    rw [ih]
    have := processItem_count env i p.1 p.2 e st
    omega

theorem processChunk_count (env : BatchEnv) (i : ℕ) (batch : List BatchDecision)
    (e : Option (List (List ℚ))) (st : BatchState) :
    (processChunk env i batch e st).imported + (processChunk env i batch e st).failed =
      st.imported + st.failed + batch.length := by
  unfold processChunk
  rw [foldl_processItem_count]
  simp

theorem importLoop_count (env : BatchEnv) (g : Bool) (ds : List BatchDecision) :
    ∀ (fuel i : ℕ) (st : BatchState), ds.length ≤ i + 50 * fuel →
      (importLoop env g ds fuel i st).imported +
        (importLoop env g ds fuel i st).failed =
      st.imported + st.failed + (ds.length - i) := by
  intro fuel
  induction fuel with
  | zero =>
    intro i st h
    unfold importLoop
    omega
  | succ n ih =>
    intro i st h
    have hstep : importLoop env g ds (n + 1) i st =
        if i < ds.length then
          importLoop env g ds n (i + 50)
            (processChunk env i ((ds.drop i).take 50)
              (chunkEmbeddings env g ((ds.drop i).take 50)) st)
        else st := rfl
    rw [hstep]
    by_cases hi : i < ds.length
    · rw [if_pos hi]
      rw [ih (i + 50) _ (by omega)]
      have hc := processChunk_count env i ((ds.drop i).take 50)
        (chunkEmbeddings env g ((ds.drop i).take 50)) st
      have hl : ((ds.drop i).take 50).length = min 50 (ds.length - i) := by simp
      omega
    · rw [if_neg hi]
      omega

/-- C9: every batch-import request that passes validation yields a success
response whose counts partition the input: `imported + failed = |decisions|`,
each item counted exactly once. -/
theorem batch_counts_partition (env : BatchEnv) (decisions : List BatchDecision)
    (g : Bool) (h0 : decisions ≠ []) (h1 : decisions.length ≤ 1000) :
    ∃ resp st, batchImport env decisions g = .ok resp st ∧
      resp.imported + resp.failed = decisions.length := by
  have hne : ¬ decisions.length = 0 := fun hc => h0 (List.length_eq_zero.mp hc)
  have hok : batchImport env decisions g =
      mkOkResponse (importLoop env g decisions decisions.length 0 initBatchState) := by
    unfold batchImport
    rw [if_neg hne, if_neg (by omega)]
  refine ⟨_, _, by rw [hok]; rfl, ?_⟩
  show (importLoop env g decisions decisions.length 0 initBatchState).imported +
    (importLoop env g decisions decisions.length 0 initBatchState).failed =
      decisions.length
  have hcount := importLoop_count env g decisions decisions.length 0 initBatchState
    (by omega)
  rw [show initBatchState.imported = 0 from rfl,
    show initBatchState.failed = 0 from rfl] at hcount
  omega

/-- Witness for C9 on a one-element batch whose event creation fails:
`imported + failed = 1`. -/
theorem batch_counts_partition_witness :
    ∃ resp st, batchImport failEnv [{}] false = .ok resp st ∧
      resp.imported + resp.failed = ([({} : BatchDecision)]).length :=
  batch_counts_partition failEnv [{}] false (by decide) (by decide)

/-- Error bookkeeping invariant: every failure appended exactly one
index-tagged message. -/
def ErrInv (st : BatchState) : Prop :=
  st.errors.length = st.failed ∧ ∀ e ∈ st.errors, ∃ idx msg, e = itemError idx msg

theorem errInv_recordFailure (st : BatchState) (idx : ℕ) (msg : String)
    (h : ErrInv st) : ErrInv (recordFailure st idx msg) := by
  obtain ⟨h1, h2⟩ := h
  constructor
  · simp [recordFailure, h1]
  · intro e he
    simp only [recordFailure, List.mem_append, List.mem_singleton] at he
    rcases he with he | rfl
    · exact h2 e he
    · exact ⟨idx, msg, rfl⟩

theorem errInv_processItem (env : BatchEnv) (i j : ℕ) (d : BatchDecision)
    (e : Option (List (List ℚ))) (st : BatchState) (h : ErrInv st) :
    ErrInv (processItem env i j d e st) := by
  unfold processItem storeStep
  repeat' split
  all_goals first
    | exact errInv_recordFailure _ _ _ (by simpa [ErrInv] using h)
    | simpa [ErrInv] using h

theorem errInv_foldl (env : BatchEnv) (i : ℕ) (e : Option (List (List ℚ))) :
    ∀ (l : List (ℕ × BatchDecision)) (st : BatchState), ErrInv st →
      ErrInv (l.foldl (fun acc jd => processItem env i jd.1 jd.2 e acc) st) := by
  intro l
  induction l with
  | nil => intro st h; simpa using h
  | cons p l ih =>
    intro st h
    simp only [List.foldl_cons]
    exact ih _ (errInv_processItem env i p.1 p.2 e st h)

theorem errInv_processChunk (env : BatchEnv) (i : ℕ) (batch : List BatchDecision)
    (e : Option (List (List ℚ))) (st : BatchState) (h : ErrInv st) :
    ErrInv (processChunk env i batch e st) := by
  unfold processChunk
  exact errInv_foldl env i e batch.enum st h

theorem errInv_importLoop (env : BatchEnv) (g : Bool) (ds : List BatchDecision) :
    ∀ (fuel i : ℕ) (st : BatchState), ErrInv st →
      ErrInv (importLoop env g ds fuel i st) := by
  intro fuel
  induction fuel with
  | zero => intro i st h; simpa [importLoop] using h
  | succ n ih =>
    intro i st h
    have hstep : importLoop env g ds (n + 1) i st =
        if i < ds.length then
          importLoop env g ds n (i + 50)
            (processChunk env i ((ds.drop i).take 50)
              (chunkEmbeddings env g ((ds.drop i).take 50)) st)
        else st := rfl
    rw [hstep]
    by_cases hi : i < ds.length
    · rw [if_pos hi]
      exact ih _ _ (errInv_processChunk env i _ _ st h)
    · rw [if_neg hi]
      exact h

/-- C7: in a batch import every per-item failure increments `failed` and
appends one index-tagged error message (so all failures are counted:
the accumulated error list has exactly `failed` entries, each of the form
`Decision idx: msg`), and the response returns at most the first 10 of
them. -/
theorem batch_errors_accounted (env : BatchEnv) (decisions : List BatchDecision)
    (g : Bool) (resp : BatchResponse) (st : BatchState)
    (h : batchImport env decisions g = .ok resp st) :
    st.errors.length = resp.failed ∧
    resp.errors = st.errors.take 10 ∧
    resp.errors.length ≤ 10 ∧
    ∀ e ∈ st.errors, ∃ idx msg, e = itemError idx msg := by
  unfold batchImport at h
  by_cases h0 : decisions.length = 0
  · rw [if_pos h0] at h
    exact (BatchOutcome.noConfusion h)
  · rw [if_neg h0] at h
    by_cases h1 : 1000 < decisions.length
    · rw [if_pos h1] at h
      exact (BatchOutcome.noConfusion h)
    · rw [if_neg h1] at h
      unfold mkOkResponse at h
      injection h with hr hs
      subst hs
      subst hr
      have hinv := errInv_importLoop env g decisions decisions.length 0 initBatchState
        (by constructor <;> simp [initBatchState])
      exact ⟨hinv.1, rfl, List.length_take_le _ _, hinv.2⟩

/-- Witness for C7: in a one-element batch whose event creation raises
`boom`, the single recorded error is the index-tagged message
`Decision 0: boom`. -/
theorem batch_errors_accounted_witness :
    ∃ idx msg, "Decision 0: boom" = itemError idx msg := by
  have h := batch_errors_accounted failEnv [{}] false
    ⟨0, 1, ["Decision 0: boom"], "Imported 0 decisions, 1 failed"⟩
    ⟨0, 1, ["Decision 0: boom"], [], []⟩ (by decide)
  exact h.2.2.2 "Decision 0: boom" (by simp)

/-- C6: when `generateEmbeddings` is on and the `embedBatch` call for a
chunk raises, the chunk is still processed with no generated embeddings
(first conjunct: the loop continues on the chunk with `embeddings = null`);
in the Scenario D run (60 decisions, embedding generation succeeding only
for the first 50-element chunk, no caller-supplied embeddings) all 60
items are imported, none fail, and vectors are stored exactly for items
0-49. -/
theorem batch_embed_failure_degrades :
    (∀ (env : BatchEnv) (ds : List BatchDecision) (fuel i : ℕ) (st : BatchState)
      (msg : String), i < ds.length →
      env.generateBatch (((ds.drop i).take 50).map mkEmbedContext) = .error msg →
      importLoop env true ds (fuel + 1) i st =
        importLoop env true ds fuel (i + 50)
          (processChunk env i ((ds.drop i).take 50) none st)) ∧
    outcomeImported (batchImport envD decisionsD true) = 60 ∧
    outcomeFailed (batchImport envD decisionsD true) = 0 ∧
    outcomeStored (batchImport envD decisionsD true) =
      (List.range 50).map (fun idx => (idx, genVec)) := by
  refine ⟨?_, ?_, ?_, ?_⟩
  · intro env ds fuel i st msg hi hgen
    have hce : chunkEmbeddings env true ((ds.drop i).take 50) = none := by
      unfold chunkEmbeddings
      rw [if_pos rfl, hgen]
    have hstep : importLoop env true ds (fuel + 1) i st =
        if i < ds.length then
          importLoop env true ds fuel (i + 50)
            (processChunk env i ((ds.drop i).take 50)
              (chunkEmbeddings env true ((ds.drop i).take 50)) st)
        else st := rfl
    rw [hstep, if_pos hi, hce]
  · decide
  · decide
  · decide

/-- Witness for C6: on the Scenario D environment the second chunk's
`generateBatch` call fails, and the loop step at `i = 50` indeed proceeds
with no generated embeddings. -/
theorem batch_embed_failure_degrades_witness :
    importLoop envD true decisionsD 10 50 initBatchState =
      importLoop envD true decisionsD 9 100
        (processChunk envD 50 ((decisionsD.drop 50).take 50) none initBatchState) :=
  batch_embed_failure_degrades.1 envD decisionsD 9 50 initBatchState
    "BackendUnavailable" (by decide) rfl

end LedgerMind
